import Mathlib

/-!
Verification of the OGMNeo relation query builder.

A shallow embedding of `src/lib/ogmneo-relation-query.js` (class
`OGMNeoRelationQuery`) together with models of its two collaborators
(`ogmneo-where.js` and `ogmneo-parse.js`, which are not part of the sources
under verification and are therefore modelled from the specification).

JavaScript dynamic values that flow into the builder's setters are embedded
as an inductive type `JSVal`; the lodash type guards (`_.isInteger`,
`_.isString`, `_.isEmpty`) and the `instanceof OGMNeoWhere` test become
predicates on `JSVal`.  The builder's private fields (`_type`,
`_startNodeId`, ...) become `Option`-valued fields of a structure; a field
that was never assigned is `none` (JavaScript `undefined`), and the
source's `x != null` tests become `isSome` checks (the stored values are
never `null` except for the where-setters, where an explicit `null`
assignment also clears the field, hence is also `none`).

JavaScript truthiness tests on stored values (`(this._limit) ? ... : ...`,
`(this._returnRelation) ? ... : ...`) are embedded faithfully: a stored
number is truthy iff it is nonzero, a stored string is truthy iff it is
nonempty.
-/

namespace OGMNeo

/-- Modelled from the spec (§4.1): `ogmneo-where.js` is not among the sources
under verification.  A `Where` filter is a single-field predicate holding a
pattern `variable` (settable late by the containing query builder), a
non-empty field name and an operator/value pair; its `clause` accessor
renders a boolean fragment such as `n1.name = 'Test1'`.  Boolean composition
of nested filters is not needed by any claim and is omitted. -/
structure OGMNeoWhere where
  varName : String
  field : String
  op : String
  value : String
deriving DecidableEq, Repr

/-- Modelled from the spec (§4.1): the `clause` accessor renders the filter
as `<variable>.<field> <op> <value>`. -/
def OGMNeoWhere.clause (w : OGMNeoWhere) : String :=
  w.varName ++ "." ++ w.field ++ " " ++ w.op ++ " " ++ w.value

/-- A scalar JavaScript value (element of an array argument).  `pfloat`
stands for a non-integer number; no guard or renderer in the embedded code
inspects such a number's value, only its type. -/
inductive JSPrim where
  | pint (i : Int)
  | pfloat
  | pstr (s : String)
  | pbool (b : Bool)
  | pnull
  | pundefined
deriving DecidableEq, Repr

/-- A JavaScript value as it may be passed to one of the builder's setters.
`vfloat` stands for a non-integer number and `vobj` for a plain object
(neither carries data the embedded code ever reads); `varr` carries scalar
elements, which is all the embedded guards ever distinguish. -/
inductive JSVal where
  | vint (i : Int)
  | vfloat
  | vstr (s : String)
  | vbool (b : Bool)
  | vnull
  | vundefined
  | vwhere (w : OGMNeoWhere)
  | vobj
  | varr (l : List JSPrim)
deriving DecidableEq, Repr

/-- lodash `_.isInteger`. -/
def isInteger : JSVal → Bool
  | .vint _ => true
  | _ => false

/-- lodash `_.isString`. -/
def isString : JSVal → Bool
  | .vstr _ => true
  | _ => false

/-- JavaScript loose equality with null (`x == null`): true exactly for
`null` and `undefined`. -/
def isNullish : JSVal → Bool
  | .vnull => true
  | .vundefined => true
  | _ => false

/-- Test `x instanceof OGMNeoWhere`. -/
def isWhereVal : JSVal → Bool
  | .vwhere _ => true
  | _ => false

def whereVal : JSVal → OGMNeoWhere
  | .vwhere w => w
  | _ => ⟨"", "", "", ""⟩

def isPrimStr : JSPrim → Bool
  | .pstr _ => true
  | _ => false

def primStr : JSPrim → String
  | .pstr s => s
  | _ => ""

/-- Comma-join of a list of rendered tokens (separator `, `). -/
def joinComma : List String → String
  | [] => ""
  | [t] => t
  | t :: ts => t ++ ", " ++ joinComma ts

/-- Modelled from the spec (§4.2): `ogmneo-parse.js` is not among the
sources under verification.  `isValidPropertiesArray(value)` returns true
when value is a non-empty string or a non-empty sequence of strings. -/
def isValidPropertiesArray : JSVal → Bool
  | .vstr s => s ≠ ""
  | .varr l => !l.isEmpty && l.all isPrimStr
  | _ => false

/-- Modelled from the spec (§4.2): `parsePropertiesArray(value, variable)`
renders a comma-joined list of `variable.property` tokens (a single string
becomes one token, a sequence becomes N tokens in input order). -/
def parsePropertiesArray (v : JSVal) (vbl : String) : String :=
  match v with
  | .vstr s => vbl ++ "." ++ s
  | .varr l => joinComma (l.map fun p => vbl ++ "." ++ primStr p)
  | _ => ""

/-- The ordering descriptor stored in `_orderBy` by `descOrderBy` /
`ascOrderBy` (a plain JS object literal; fields absent from the literal are
`undefined`). -/
structure OrderBy where
  properties : JSVal
  startNodeProperties : JSVal
  endNodeProperties : JSVal
  order : String
deriving DecidableEq, Repr

/-- The private state of an `OGMNeoRelationQuery` instance: one field per
`this._x` property of the source class. -/
structure OGMNeoRelationQuery where
  _type : Option String := none
  _startNodeId : Option Int := none
  _startNodeLabel : Option String := none
  _endNodeId : Option Int := none
  _endNodeLabel : Option String := none
  _startNodeWhere : Option OGMNeoWhere := none
  _endNodeWhere : Option OGMNeoWhere := none
  _relationWhere : Option OGMNeoWhere := none
  _limit : Option Int := none
  _orderBy : Option OrderBy := none
  _returnStart : Option String := none
  _returnEnd : Option String := none
  _returnRelation : Option String := none
deriving DecidableEq, Repr

namespace OGMNeoRelationQuery

/-- Setter `set type(type)`: stores the argument only when it is a non-empty
string (`_.isString(type) && !_.isEmpty(type)`). -/
def setType (v : JSVal) (q : OGMNeoRelationQuery) : OGMNeoRelationQuery :=
  match v with
  | .vstr t => if t ≠ "" then { q with _type := some t } else q
  | _ => q

/-- The constructor / static `create(type)`: a fresh instance whose only
initialisation is `this.type = type` through the setter. -/
def create (v : JSVal) : OGMNeoRelationQuery :=
  setType v {}

/-- Method `startNode(nodeId, label)`: the two guards are independent. -/
def startNode (nodeId label : JSVal) (q : OGMNeoRelationQuery) : OGMNeoRelationQuery :=
  let q1 := match nodeId with
    | .vint i => { q with _startNodeId := some i }
    | _ => q
  match label with
  | .vstr l => { q1 with _startNodeLabel := some l }
  | _ => q1

/-- Method `endNode(nodeId, label)`: the two guards are independent. -/
def endNode (nodeId label : JSVal) (q : OGMNeoRelationQuery) : OGMNeoRelationQuery :=
  let q1 := match nodeId with
    | .vint i => { q with _endNodeId := some i }
    | _ => q
  match label with
  | .vstr l => { q1 with _endNodeLabel := some l }
  | _ => q1

/-- Method `startNodeWhere(where)`: accepts `null`/`undefined` (clears) or an
`OGMNeoWhere` instance, whose `variable` is stamped to `n1`; any other
value is ignored. -/
def startNodeWhere (v : JSVal) (q : OGMNeoRelationQuery) : OGMNeoRelationQuery :=
  match v with
  | .vnull => { q with _startNodeWhere := none }
  | .vundefined => { q with _startNodeWhere := none }
  | .vwhere w => { q with _startNodeWhere := some { w with varName := "n1" } }
  | _ => q

/-- Method `endNodeWhere(where)`: as `startNodeWhere`, stamping `n2`. -/
def endNodeWhere (v : JSVal) (q : OGMNeoRelationQuery) : OGMNeoRelationQuery :=
  match v with
  | .vnull => { q with _endNodeWhere := none }
  | .vundefined => { q with _endNodeWhere := none }
  | .vwhere w => { q with _endNodeWhere := some { w with varName := "n2" } }
  | _ => q

/-- Method `relationWhere(where)`: as `startNodeWhere`, stamping `r`. -/
def relationWhere (v : JSVal) (q : OGMNeoRelationQuery) : OGMNeoRelationQuery :=
  match v with
  | .vnull => { q with _relationWhere := none }
  | .vundefined => { q with _relationWhere := none }
  | .vwhere w => { q with _relationWhere := some { w with varName := "r" } }
  | _ => q

/-- Method `limit(limit)`: stores the argument only when `_.isInteger` holds. -/
def limit (v : JSVal) (q : OGMNeoRelationQuery) : OGMNeoRelationQuery :=
  match v with
  | .vint i => { q with _limit := some i }
  | _ => q

/-- Method `descOrderBy(properties)`: unconditionally replaces `_orderBy` with a
fresh descriptor `{ properties, order: 'DESC' }` (the start/end property
fields are absent from the literal, i.e. `undefined`). -/
def descOrderBy (properties : JSVal) (q : OGMNeoRelationQuery) : OGMNeoRelationQuery :=
  { q with _orderBy := some ⟨properties, .vundefined, .vundefined, "DESC"⟩ }

/-- Method `ascOrderBy(properties, startNodeProperties = null,
endNodeProperties = null)`: unconditionally replaces `_orderBy` with a fresh `ASC`
descriptor. -/
def ascOrderBy (properties startNodeProperties endNodeProperties : JSVal)
    (q : OGMNeoRelationQuery) : OGMNeoRelationQuery :=
  { q with
    _orderBy := some ⟨properties, startNodeProperties, endNodeProperties, "ASC"⟩ }

/-- Method `returnStartNode(properties)`: stores the parsed projection when the
argument passes `isValidPropertiesArray`. -/
def returnStartNode (v : JSVal) (q : OGMNeoRelationQuery) : OGMNeoRelationQuery :=
  if isValidPropertiesArray v then
    { q with _returnStart := some (parsePropertiesArray v "n1") }
  else q

/-- Method `returnEndNode(properties)`. -/
def returnEndNode (v : JSVal) (q : OGMNeoRelationQuery) : OGMNeoRelationQuery :=
  if isValidPropertiesArray v then
    { q with _returnEnd := some (parsePropertiesArray v "n2") }
  else q

/-- Method `returnRelationNode(properties)`. -/
def returnRelationNode (v : JSVal) (q : OGMNeoRelationQuery) : OGMNeoRelationQuery :=
  if isValidPropertiesArray v then
    { q with _returnRelation := some (parsePropertiesArray v "r") }
  else q

/-- Private helper `_concatWhereClause(whereClause, newClause)`. -/
def _concatWhereClause (whereClause newClause : String) : String :=
  whereClause ++ (if whereClause ≠ "" then " AND " else "") ++ newClause

/-- Method `whereCypher()`: the five conditional terms, in source order. -/
def whereCypher (q : OGMNeoRelationQuery) : String :=
  let w := ""
  let w := match q._startNodeId with
    | some i => _concatWhereClause w ("ID(n1) = " ++ toString i)
    | none => w
  let w := match q._endNodeId with
    | some i => _concatWhereClause w ("ID(n2) = " ++ toString i)
    | none => w
  let w := match q._relationWhere with
    | some f => _concatWhereClause w f.clause
    | none => w
  let w := match q._startNodeWhere with
    | some f => _concatWhereClause w f.clause
    | none => w
  let w := match q._endNodeWhere with
    | some f => _concatWhereClause w f.clause
    | none => w
  if w ≠ "" then "WHERE " ++ w else ""

/-- Private helper `_startNodeClause()`. -/
def _startNodeClause (q : OGMNeoRelationQuery) : String :=
  "n1" ++ (match q._startNodeLabel with
    | some l => ":" ++ l
    | none => "")

/-- Private helper `_endNodeClause()`. -/
def _endNodeClause (q : OGMNeoRelationQuery) : String :=
  "n2" ++ (match q._endNodeLabel with
    | some l => ":" ++ l
    | none => "")

/-- Private helper `_relationClause()`. -/
def _relationClause (q : OGMNeoRelationQuery) : String :=
  "r" ++ (match q._type with
    | some t => ":" ++ t
    | none => "")

/-- Method `matchCypher()`. -/
def matchCypher (q : OGMNeoRelationQuery) : String :=
  "MATCH p=(" ++ q._startNodeClause ++ ")-[" ++ q._relationClause ++ "]->("
    ++ q._endNodeClause ++ ") " ++ q.whereCypher

/-- JavaScript truthiness of a possibly-stored string (`(x) ? x : d`). -/
def strOrDefault (o : Option String) (d : String) : String :=
  match o with
  | some s => if s ≠ "" then s else d
  | none => d

/-- Method `returnClause(populated = false)`. -/
def returnClause (q : OGMNeoRelationQuery) (populated : Bool) : String :=
  let rc := strOrDefault q._returnRelation "r"
  let rc := if populated then
      rc ++ ", " ++ strOrDefault q._returnStart "n1"
        ++ ", " ++ strOrDefault q._returnEnd "n2"
    else rc
  "RETURN " ++ rc

/-- Method `nodesReturnClause(nodes, distinct)`; the `!nodes` test is true for a
falsy (empty) string. -/
def nodesReturnClause (q : OGMNeoRelationQuery) (nodes : String) (distinct : Bool) : String :=
  let rc := ""
  let distinctClause := if distinct then "DISTINCT " else ""
  let rc := if nodes = "" ∨ nodes = "start" ∨ nodes = "both" then
      rc ++ strOrDefault q._returnStart "n1"
    else rc
  let rc := if nodes = "" ∨ nodes = "end" ∨ nodes = "both" then
      rc ++ (if rc ≠ "" then ", " else "") ++ strOrDefault q._returnEnd "n2"
    else rc
  "RETURN " ++ distinctClause ++ rc

/-- Private helper `_addOrderByClause(clause, properties, variable)`. -/
def _addOrderByClause (clause : String) (properties : JSVal) (vbl : String) : String :=
  if isValidPropertiesArray properties then
    clause ++ (if clause ≠ "" then ", " else "") ++ parsePropertiesArray properties vbl
  else clause

/-- Method `orderByClause()`. -/
def orderByClause (q : OGMNeoRelationQuery) : String :=
  match q._orderBy with
  | some ob =>
    let o := _addOrderByClause "" ob.properties "r"
    let o := _addOrderByClause o ob.startNodeProperties "n1"
    let o := _addOrderByClause o ob.endNodeProperties "n2"
    if o ≠ "" then "ORDER BY " ++ o ++ " " ++ ob.order else ""
  | none => ""

/-- Method `limitClause()`: the stored number is tested for truthiness, so a
stored `0` renders nothing. -/
def limitClause (q : OGMNeoRelationQuery) : String :=
  match q._limit with
  | some n => if n ≠ 0 then "LIMIT " ++ toString n else ""
  | none => ""

/-- Private helper `_queryCypherBuilder(populated)`. -/
def _queryCypherBuilder (q : OGMNeoRelationQuery) (populated : Bool) : String :=
  let query := q.matchCypher ++ " " ++ q.returnClause populated
  let orderBy := q.orderByClause
  let lim := q.limitClause
  let query := if orderBy ≠ "" then query ++ " " ++ orderBy else query
  if lim ≠ "" then query ++ " " ++ lim else query

/-- Method `queryCypher()`. -/
def queryCypher (q : OGMNeoRelationQuery) : String :=
  q._queryCypherBuilder false

/-- Method `queryPopulatedCypher()`. -/
def queryPopulatedCypher (q : OGMNeoRelationQuery) : String :=
  q._queryCypherBuilder true

/-- Method `queryNodesCypher(nodes = 'both', distinct = false)`. -/
def queryNodesCypher (q : OGMNeoRelationQuery) (nodes : String) (distinct : Bool) : String :=
  let query := q.matchCypher ++ " " ++ q.nodesReturnClause nodes distinct
  let orderBy := q.orderByClause
  let lim := q.limitClause
  let query := if orderBy ≠ "" then query ++ " " ++ orderBy else query
  if lim ≠ "" then query ++ " " ++ lim else query

/-- Method `countCypher()`. -/
def countCypher (q : OGMNeoRelationQuery) : String :=
  q.matchCypher ++ " RETURN COUNT(r) as count"

/-!
State-passing renderings of the four public render methods.  A JavaScript
method can affect its receiver only through assignments to `this._x`; the
render path of the source contains none, so each sub-call is embedded as
returning its string together with the (unchanged) receiver state, threaded
in source evaluation order.
-/

/-- Method `matchCypher()` as a state transformer: only field reads occur. -/
def matchCypherS (q : OGMNeoRelationQuery) : String × OGMNeoRelationQuery :=
  (q.matchCypher, q)

/-- Method `returnClause(populated)` as a state transformer. -/
def returnClauseS (q : OGMNeoRelationQuery) (populated : Bool) :
    String × OGMNeoRelationQuery :=
  (q.returnClause populated, q)

/-- Method `nodesReturnClause(nodes, distinct)` as a state transformer. -/
def nodesReturnClauseS (q : OGMNeoRelationQuery) (nodes : String) (distinct : Bool) :
    String × OGMNeoRelationQuery :=
  (q.nodesReturnClause nodes distinct, q)

/-- Method `orderByClause()` as a state transformer. -/
def orderByClauseS (q : OGMNeoRelationQuery) : String × OGMNeoRelationQuery :=
  (q.orderByClause, q)

/-- Method `limitClause()` as a state transformer. -/
def limitClauseS (q : OGMNeoRelationQuery) : String × OGMNeoRelationQuery :=
  (q.limitClause, q)

/-- Private helper `_queryCypherBuilder(populated)` as a state transformer, threading the
receiver through the sub-calls in source evaluation order. -/
def _queryCypherBuilderS (q : OGMNeoRelationQuery) (populated : Bool) :
    String × OGMNeoRelationQuery :=
  let (m, q1) := matchCypherS q
  let (rc, q2) := returnClauseS q1 populated
  let query := m ++ " " ++ rc
  let (orderBy, q3) := orderByClauseS q2
  let (lim, q4) := limitClauseS q3
  let query := if orderBy ≠ "" then query ++ " " ++ orderBy else query
  (if lim ≠ "" then query ++ " " ++ lim else query, q4)

/-- Method `queryCypher()` as a state transformer. -/
def queryCypherS (q : OGMNeoRelationQuery) : String × OGMNeoRelationQuery :=
  _queryCypherBuilderS q false

/-- Method `queryPopulatedCypher()` as a state transformer. -/
def queryPopulatedCypherS (q : OGMNeoRelationQuery) : String × OGMNeoRelationQuery :=
  _queryCypherBuilderS q true

/-- Method `queryNodesCypher(nodes, distinct)` as a state transformer. -/
def queryNodesCypherS (q : OGMNeoRelationQuery) (nodes : String) (distinct : Bool) :
    String × OGMNeoRelationQuery :=
  let (m, q1) := matchCypherS q
  let (nrc, q2) := nodesReturnClauseS q1 nodes distinct
  let query := m ++ " " ++ nrc
  let (orderBy, q3) := orderByClauseS q2
  let (lim, q4) := limitClauseS q3
  let query := if orderBy ≠ "" then query ++ " " ++ orderBy else query
  (if lim ≠ "" then query ++ " " ++ lim else query, q4)

/-- Method `countCypher()` as a state transformer. -/
def countCypherS (q : OGMNeoRelationQuery) : String × OGMNeoRelationQuery :=
  let (m, q1) := matchCypherS q
  (m ++ " RETURN COUNT(r) as count", q1)

end OGMNeoRelationQuery

/-! Specification-side vocabulary used to state the claims. -/

/-- Conjunction of rendered terms, joined by the text ` AND `. -/
def joinAnd : List String → String
  | [] => ""
  | [t] => t
  | t :: ts => t ++ " AND " ++ joinAnd ts

/-- The list of WHERE terms that are present in a builder state, in the
order stated by the specification: start-id equality, end-id equality,
relation filter, start filter, end filter. -/
def whereTerms (q : OGMNeoRelationQuery) : List String :=
  (q._startNodeId.toList.map fun i => "ID(n1) = " ++ toString i) ++
  (q._endNodeId.toList.map fun i => "ID(n2) = " ++ toString i) ++
  (q._relationWhere.toList.map OGMNeoWhere.clause) ++
  (q._startNodeWhere.toList.map OGMNeoWhere.clause) ++
  (q._endNodeWhere.toList.map OGMNeoWhere.clause)

/-- A label/type token of the match pattern: `:<value>` when the constraint
is set, omitted entirely (no colon) when unset. -/
def optColon : Option String → String
  | some l => ":" ++ l
  | none => ""

/-- The rendered order-by property lists that are present in an ordering
descriptor, in the order stated by the specification: relation (`r`), start
node (`n1`), end node (`n2`); absent or invalid lists are skipped. -/
def orderTerms (ob : OrderBy) : List String :=
  (if isValidPropertiesArray ob.properties then
    [parsePropertiesArray ob.properties "r"] else []) ++
  (if isValidPropertiesArray ob.startNodeProperties then
    [parsePropertiesArray ob.startNodeProperties "n1"] else []) ++
  (if isValidPropertiesArray ob.endNodeProperties then
    [parsePropertiesArray ob.endNodeProperties "n2"] else [])

/-! Helper lemmas about string emptiness. -/

@[simp] theorem string_append_eq_empty_iff (a b : String) :
    (a ++ b = "") ↔ (a = "" ∧ b = "") := by
  constructor
  · intro h
    have hd : a.data ++ b.data = [] := by
      have := congrArg String.data h
      simpa using this
    have := List.append_eq_nil.mp hd
    exact ⟨String.ext this.1, String.ext this.2⟩
  · rintro ⟨rfl, rfl⟩
    rfl

theorem clause_ne_empty (w : OGMNeoWhere) : w.clause ≠ "" := by
  simp [OGMNeoWhere.clause]

theorem joinComma_cons_ne_empty (x : String) (xs : List String) (hx : x ≠ "") :
    joinComma (x :: xs) ≠ "" := by
  cases xs with
  | nil => exact hx
  | cons y ys => simp [joinComma, hx]

theorem parse_ne_empty (v : JSVal) (vbl : String)
    (h : isValidPropertiesArray v = true) : parsePropertiesArray v vbl ≠ "" := by
  cases v with
  | vstr s =>
    simp [isValidPropertiesArray] at h
    simp [parsePropertiesArray, h]
  | varr l =>
    simp [isValidPropertiesArray, List.isEmpty_iff] at h
    obtain ⟨hne, -⟩ := h
    cases l with
    | nil => exact absurd rfl hne
    | cons p rest =>
      simp only [parsePropertiesArray, List.map_cons]
      apply joinComma_cons_ne_empty
      simp
  | vint i => simp [isValidPropertiesArray] at h
  | vfloat => simp [isValidPropertiesArray] at h
  | vbool b => simp [isValidPropertiesArray] at h
  | vnull => simp [isValidPropertiesArray] at h
  | vundefined => simp [isValidPropertiesArray] at h
  | vwhere w => simp [isValidPropertiesArray] at h
  | vobj => simp [isValidPropertiesArray] at h

end OGMNeo

namespace OGMNeo

open OGMNeoRelationQuery in
/-- C1: for every query-builder state, the rendered WHERE fragment is the
conjunction, joined by ` AND `, of exactly the present terms in the fixed
order start-id equality, end-id equality, relation filter, start filter,
end filter; absent terms are skipped, and when no term is present the WHERE
keyword is omitted entirely. -/
theorem whereCypher_conjunction_of_present_terms (q : OGMNeoRelationQuery) :
    whereCypher q =
      if whereTerms q = [] then "" else "WHERE " ++ joinAnd (whereTerms q) := by
  obtain ⟨t, sid, slb, eid, elb, sw, ew, rw_, lim, ob, rs, re, rr⟩ := q
  rcases sid with - | i1 <;> rcases eid with - | i2 <;>
    rcases rw_ with - | w1 <;> rcases sw with - | w2 <;> rcases ew with - | w3 <;>
      simp [whereCypher, whereTerms, joinAnd, _concatWhereClause,
        OGMNeoWhere.clause, String.append_assoc]

end OGMNeo

namespace OGMNeo
namespace OGMNeoRelationQuery

theorem builder_prefix_match (q : OGMNeoRelationQuery) (pop : Bool) :
    List.IsPrefix (matchCypher q).data (_queryCypherBuilder q pop).data := by
  unfold _queryCypherBuilder
  dsimp only
  split <;> split <;>
    simp [String.data_append, List.append_assoc]

theorem nodes_prefix_match (q : OGMNeoRelationQuery) (nodes : String) (d : Bool) :
    List.IsPrefix (matchCypher q).data (queryNodesCypher q nodes d).data := by
  unfold queryNodesCypher
  dsimp only
  split <;> split <;>
    simp [String.data_append, List.append_assoc]

end OGMNeoRelationQuery

open OGMNeoRelationQuery in
/-- C3: the match portion of every rendered query is
`MATCH p=(n1[:startLabel])-[r[:type]]->(n2[:endLabel])`, the bracketed
tokens being omitted entirely (no colon) exactly when the corresponding
constraint is unset. -/
theorem matchCypher_pattern (q : OGMNeoRelationQuery) :
    matchCypher q =
      "MATCH p=(" ++ ("n1" ++ optColon q._startNodeLabel) ++ ")-["
        ++ ("r" ++ optColon q._type) ++ "]->("
        ++ ("n2" ++ optColon q._endNodeLabel) ++ ") " ++ whereCypher q ∧
    List.IsPrefix (matchCypher q).data (queryCypher q).data ∧
    List.IsPrefix (matchCypher q).data (queryPopulatedCypher q).data ∧
    (∀ nodes distinct,
      List.IsPrefix (matchCypher q).data (queryNodesCypher q nodes distinct).data) ∧
    List.IsPrefix (matchCypher q).data (countCypher q).data := by
  refine ⟨?_, builder_prefix_match q false, builder_prefix_match q true,
    fun nodes distinct => nodes_prefix_match q nodes distinct, ?_⟩
  · rcases q with ⟨t, sid, slb, eid, elb, sw, ew, rw_, lim, ob, rs, re, rr⟩
    rcases t with - | t <;> rcases slb with - | l1 <;> rcases elb with - | l2 <;>
      simp [matchCypher, _startNodeClause, _endNodeClause, _relationClause, optColon,
        String.append_assoc]
  · simp [countCypher, String.data_append]

end OGMNeo

namespace OGMNeo

open OGMNeoRelationQuery in
/-- C4 counterexample: on the default builder state, the count renderer does
NOT produce the text `RETURN COUNT(r) AS count` after the match and where
clauses — the keyword `as` is emitted in lower case. -/
theorem countCypher_uppercase_AS_cex :
    countCypher ({} : OGMNeoRelationQuery) ≠
      matchCypher ({} : OGMNeoRelationQuery) ++ " RETURN COUNT(r) AS count" ∧
    countCypher ({} : OGMNeoRelationQuery) =
      "MATCH p=(n1)-[r]->(n2)  RETURN COUNT(r) as count" := by
  constructor
  · decide
  · rfl

open OGMNeoRelationQuery in
/-- C4 (amended): the count renderer produces the match and where clauses
followed by exactly the text `RETURN COUNT(r) as count` (lower-case `as`),
and its output is unaffected by the ordering, limit, and projection
settings. -/
theorem countCypher_shape_ignores_order_limit_projection
    (q : OGMNeoRelationQuery) (ob : Option OrderBy) (l : Option Int)
    (rs re rr : Option String) :
    countCypher q = matchCypher q ++ " RETURN COUNT(r) as count" ∧
    countCypher { q with
      _orderBy := ob, _limit := l, _returnStart := rs,
      _returnEnd := re, _returnRelation := rr } = countCypher q := by
  exact ⟨rfl, rfl⟩

end OGMNeo

namespace OGMNeo

open OGMNeoRelationQuery in
/-- C5 counterexample: `limit(0)` stores the integer `0`, yet the rendered
query contains no LIMIT clause (the stored number is tested for JavaScript
truthiness), so "a LIMIT clause appears iff a limit was set" fails. -/
theorem limit_zero_renders_no_limit_clause_cex :
    (limit (.vint 0) ({} : OGMNeoRelationQuery))._limit = some 0 ∧
    queryCypher (limit (.vint 0) ({} : OGMNeoRelationQuery)) =
      "MATCH p=(n1)-[r]->(n2)  RETURN r" ∧
    queryCypher (limit (.vint 0) ({} : OGMNeoRelationQuery)) =
      queryCypher ({} : OGMNeoRelationQuery) := by
  exact ⟨rfl, rfl, rfl⟩

open OGMNeoRelationQuery in
/-- C5 (amended): the limit setter stores its argument exactly when it is an
integer (otherwise leaving prior state unchanged); a `LIMIT <n>` clause is
appended to the rendered query when the stored limit is a nonzero integer,
while a stored limit of `0` renders exactly like no limit at all. -/
theorem limit_store_and_render (q : OGMNeoRelationQuery) (v : JSVal) (i n : Int) :
    (limit (.vint i) q = { q with _limit := some i }) ∧
    (isInteger v = false → limit v q = q) ∧
    (q._limit = some n → n ≠ 0 →
      queryCypher q =
        queryCypher { q with _limit := none } ++ " " ++ ("LIMIT " ++ toString n)) ∧
    (queryCypher { q with _limit := some 0 } =
      queryCypher { q with _limit := none }) := by
  refine ⟨rfl, ?_, ?_, ?_⟩
  · intro hv
    cases v <;> simp_all [limit, isInteger]
  · intro h hn
    have hlim : limitClause q = "LIMIT " ++ toString n := by
      simp [limitClause, h, hn]
    have hlim0 : limitClause ({ q with _limit := none }) = "" := rfl
    have hm : matchCypher { q with _limit := none } = matchCypher q := rfl
    have hrc : returnClause { q with _limit := none } false = returnClause q false := rfl
    have hob : orderByClause { q with _limit := none } = orderByClause q := rfl
    simp only [queryCypher, _queryCypherBuilder, hlim, hlim0, hm, hrc, hob]
    by_cases hcase : orderByClause q = "" <;> simp [hcase]
  · have hlim0 : limitClause { q with _limit := some 0 } = "" := rfl
    have hlim1 : limitClause ({ q with _limit := none }) = "" := rfl
    have hm : matchCypher { q with _limit := some 0 } = matchCypher q := rfl
    have hm' : matchCypher { q with _limit := none } = matchCypher q := rfl
    have hrc : returnClause { q with _limit := some 0 } false = returnClause q false := rfl
    have hrc' : returnClause { q with _limit := none } false = returnClause q false := rfl
    have hob : orderByClause { q with _limit := some 0 } = orderByClause q := rfl
    have hob' : orderByClause { q with _limit := none } = orderByClause q := rfl
    simp only [queryCypher, _queryCypherBuilder, hlim0, hlim1, hm, hm', hrc, hrc', hob, hob']

open OGMNeoRelationQuery in
/-- Witness for the C5 theorem at a concrete state: a stored limit of `3`
renders with `LIMIT 3` appended. -/
theorem limit_store_and_render_witness :
    queryCypher { ({} : OGMNeoRelationQuery) with _limit := some 3 } =
      queryCypher { ({} : OGMNeoRelationQuery) with _limit := none } ++ " "
        ++ ("LIMIT " ++ toString (3 : Int)) := by
  have h := limit_store_and_render
    { ({} : OGMNeoRelationQuery) with _limit := some 3 } (.vbool true) 3 3
  exact h.2.2.1 rfl (by decide)

end OGMNeo

namespace OGMNeo

open OGMNeoRelationQuery in
/-- C2 counterexample: calling `descOrderBy` with an invalid (integer)
properties argument on a builder that holds an ascending ordering does NOT
leave the prior state unchanged — it replaces the ordering descriptor, and
the rendered query loses its ORDER BY clause. -/
theorem setters_graceful_noop_cex :
    descOrderBy (.vint 5) (ascOrderBy (.vstr "name") .vnull .vnull {}) ≠
      ascOrderBy (.vstr "name") .vnull .vnull ({} : OGMNeoRelationQuery) ∧
    queryCypher (descOrderBy (.vint 5) (ascOrderBy (.vstr "name") .vnull .vnull {})) ≠
      queryCypher (ascOrderBy (.vstr "name") .vnull .vnull ({} : OGMNeoRelationQuery)) ∧
    queryCypher (ascOrderBy (.vstr "name") .vnull .vnull ({} : OGMNeoRelationQuery)) =
      "MATCH p=(n1)-[r]->(n2)  RETURN r ORDER BY r.name ASC" ∧
    queryCypher (descOrderBy (.vint 5) (ascOrderBy (.vstr "name") .vnull .vnull {})) =
      "MATCH p=(n1)-[r]->(n2)  RETURN r" := by
  refine ⟨by decide, by decide, rfl, rfl⟩

open OGMNeoRelationQuery in
/-- C2 (amended): every chained setter except `descOrderBy` and `ascOrderBy`
silently ignores an argument of invalid type, leaving the builder state
(and hence every subsequently rendered query string) unchanged; the two
order-by setters instead unconditionally replace the ordering descriptor,
with invalid property lists merely skipped at render time. -/
theorem setters_graceful_noop_except_orderBy
    (q : OGMNeoRelationQuery) (v w : JSVal) :
    (isString v = false → setType v q = q) ∧
    (setType (.vstr "") q = q) ∧
    (isInteger v = false → isString w = false → startNode v w q = q) ∧
    (isInteger v = false → isString w = false → endNode v w q = q) ∧
    (isInteger v = false → limit v q = q) ∧
    (isNullish v = false → isWhereVal v = false →
      startNodeWhere v q = q ∧ endNodeWhere v q = q ∧ relationWhere v q = q) ∧
    (isValidPropertiesArray v = false →
      returnStartNode v q = q ∧ returnEndNode v q = q ∧ returnRelationNode v q = q) ∧
    ((descOrderBy v q)._orderBy = some ⟨v, .vundefined, .vundefined, "DESC"⟩) := by
  refine ⟨?_, rfl, ?_, ?_, ?_, ?_, ?_, rfl⟩
  · intro hv; cases v <;> simp_all [setType, isString]
  · intro hv hw
    cases v <;> cases w <;> simp_all [startNode, isInteger, isString]
  · intro hv hw
    cases v <;> cases w <;> simp_all [endNode, isInteger, isString]
  · intro hv; cases v <;> simp_all [limit, isInteger]
  · intro hv hw
    cases v <;>
      simp_all [startNodeWhere, endNodeWhere, relationWhere, isNullish, isWhereVal]
  · intro hv
    simp [returnStartNode, returnEndNode, returnRelationNode, hv]

open OGMNeoRelationQuery in
/-- Witness for the C2 theorem at concrete inputs: a boolean argument is
ignored by every guarded setter on the default state. -/
theorem setters_graceful_noop_except_orderBy_witness :
    setType (.vbool true) ({} : OGMNeoRelationQuery) = {} ∧
    startNode (.vbool true) (.vbool true) ({} : OGMNeoRelationQuery) = {} ∧
    endNode (.vbool true) (.vbool true) ({} : OGMNeoRelationQuery) = {} ∧
    limit (.vbool true) ({} : OGMNeoRelationQuery) = {} ∧
    startNodeWhere (.vbool true) ({} : OGMNeoRelationQuery) = {} ∧
    returnStartNode (.vbool true) ({} : OGMNeoRelationQuery) = {} := by
  have h := setters_graceful_noop_except_orderBy {} (.vbool true) (.vbool true)
  exact ⟨h.1 (by decide), h.2.2.1 (by decide) (by decide),
    h.2.2.2.1 (by decide) (by decide), h.2.2.2.2.1 (by decide),
    (h.2.2.2.2.2.1 (by decide) (by decide)).1,
    (h.2.2.2.2.2.2.1 (by decide)).1⟩

end OGMNeo

namespace OGMNeo

open OGMNeoRelationQuery in
/-- C6: after any sequence of order-by calls, the single active ordering
descriptor is exactly the one established by the last call — its direction
plus its up to three property lists — independent of any earlier ordering
(`descOrderBy` leaves the start/end lists absent; both setters fully
replace the stored descriptor). -/
theorem orderBy_last_call_wins (q q' : OGMNeoRelationQuery) (props sp ep : JSVal) :
    (descOrderBy props q)._orderBy = some ⟨props, .vundefined, .vundefined, "DESC"⟩ ∧
    (ascOrderBy props sp ep q)._orderBy = some ⟨props, sp, ep, "ASC"⟩ ∧
    (descOrderBy props q)._orderBy = (descOrderBy props q')._orderBy ∧
    (ascOrderBy props sp ep q)._orderBy = (ascOrderBy props sp ep q')._orderBy := by
  exact ⟨rfl, rfl, rfl, rfl⟩

open OGMNeoRelationQuery in
/-- C7: an ORDER BY clause is emitted only if an ordering descriptor is set,
and when emitted it is the comma-joined concatenation of the rendered
relation, start-node and end-node property lists in that fixed order
(absent or invalid lists skipped), followed by exactly one direction
keyword shared by all the lists; the two setters only ever install the
directions `ASC` and `DESC`. -/
theorem orderByClause_shape (q : OGMNeoRelationQuery) (props sp ep : JSVal) :
    orderByClause q =
      (match q._orderBy with
        | none => ""
        | some ob =>
          if orderTerms ob = [] then ""
          else "ORDER BY " ++ joinComma (orderTerms ob) ++ " " ++ ob.order) ∧
    ((descOrderBy props q)._orderBy.map OrderBy.order = some "DESC") ∧
    ((ascOrderBy props sp ep q)._orderBy.map OrderBy.order = some "ASC") := by
  refine ⟨?_, rfl, rfl⟩
  rcases q with ⟨t, sid, slb, eid, elb, sw, ew, rw_, lim, obq, rs, re, rr⟩
  rcases obq with - | ob
  · rfl
  · obtain ⟨p1, p2, p3, ord⟩ := ob
    by_cases h1 : isValidPropertiesArray p1 = true <;>
      by_cases h2 : isValidPropertiesArray p2 = true <;>
        by_cases h3 : isValidPropertiesArray p3 = true <;>
          simp [orderByClause, _addOrderByClause, orderTerms, joinComma, h1, h2, h3,
            parse_ne_empty, String.append_assoc]

end OGMNeo

namespace OGMNeo

open OGMNeoRelationQuery in
/-- C8: each render method, embedded as a state transformer threading the
receiver through its sub-calls, leaves every field of the builder state
unchanged, agrees with the purely functional rendering, and returns an
identical string when called a second time on the state it left behind. -/
theorem render_methods_pure (q : OGMNeoRelationQuery) (nodes : String) (d : Bool) :
    (queryCypherS q).2 = q ∧
    (queryPopulatedCypherS q).2 = q ∧
    (queryNodesCypherS q nodes d).2 = q ∧
    (countCypherS q).2 = q ∧
    (queryCypherS q).1 = queryCypher q ∧
    (queryPopulatedCypherS q).1 = queryPopulatedCypher q ∧
    (queryNodesCypherS q nodes d).1 = queryNodesCypher q nodes d ∧
    (countCypherS q).1 = countCypher q ∧
    (queryCypherS ((queryCypherS q).2)).1 = (queryCypherS q).1 ∧
    (queryPopulatedCypherS ((queryPopulatedCypherS q).2)).1 = (queryPopulatedCypherS q).1 ∧
    (queryNodesCypherS ((queryNodesCypherS q nodes d).2) nodes d).1 =
      (queryNodesCypherS q nodes d).1 ∧
    (countCypherS ((countCypherS q).2)).1 = (countCypherS q).1 := by
  exact ⟨rfl, rfl, rfl, rfl, rfl, rfl, rfl, rfl, rfl, rfl, rfl, rfl⟩

open OGMNeoRelationQuery in
/-- C9: the base return clause is the relation projection (default `r`);
the populated variant appends the start-node projection (default `n1`) and
then the end-node projection (default `n2`), comma-separated, in that fixed
order. -/
theorem returnClause_projections (q : OGMNeoRelationQuery) :
    returnClause q false = "RETURN " ++ strOrDefault q._returnRelation "r" ∧
    returnClause q true =
      "RETURN " ++ (strOrDefault q._returnRelation "r" ++ ", "
        ++ strOrDefault q._returnStart "n1" ++ ", "
        ++ strOrDefault q._returnEnd "n2") ∧
    returnClause { q with
      _returnRelation := none, _returnStart := none, _returnEnd := none } true =
        "RETURN r, n1, n2" ∧
    returnClause { q with _returnRelation := none } false = "RETURN r" := by
  exact ⟨rfl, rfl, rfl, rfl⟩

open OGMNeoRelationQuery in
/-- C10 (implicit): `startNode`/`endNode` accept any string as a label,
including the empty string (unlike the type setter, which rejects the empty
string), and a stored empty-string label renders as a dangling colon in the
match pattern. -/
theorem empty_label_dangling_colon (q : OGMNeoRelationQuery) (t : String) :
    ((startNode .vundefined (.vstr t) q)._startNodeLabel = some t) ∧
    ((endNode .vundefined (.vstr t) q)._endNodeLabel = some t) ∧
    (_startNodeClause { q with _startNodeLabel := some "" } = "n1:") ∧
    (_endNodeClause { q with _endNodeLabel := some "" } = "n2:") ∧
    (setType (.vstr "") q = q) ∧
    (matchCypher (startNode (.vint 1) (.vstr "") ({} : OGMNeoRelationQuery)) =
      "MATCH p=(n1:)-[r]->(n2) WHERE ID(n1) = 1") := by
  exact ⟨rfl, rfl, rfl, rfl, rfl, rfl⟩

end OGMNeo
